import Mathlib

/-!
Shallow embedding of the core of tomruk/socket.io-go: the session-aware
adapter (adapter/adapter_session_aware.go and the persisted-packet types),
namespace resolution (Server.Of, serverConn.connect), the server socket's
ack bookkeeping (socket_server.go), the Engine.IO HTTP entry point
(Server.ServeHTTP) and the transport-upgrade protocol (Server.maybeUpgrade).

Go `time.Time` and `time.Duration` are embedded as `Int` (nanoseconds);
`time.Now()` is threaded through every time-dependent operation as an
explicit `now` parameter.  `t.After u` is `u < t`, `t.Before u` is `t < u`,
`t.Add d` is `t + d`.  Go maps are embedded as association lists with
first-match lookup, whole-key erase and overwriting insert.
-/

/-- Go map lookup: `v, ok := m[k]` (first binding wins). -/
def mapLookup {κ α : Type} [DecidableEq κ] (l : List (κ × α)) (k : κ) : Option α :=
  (l.find? (fun e => e.1 = k)).map (·.2)

/-- Go map delete: `delete(m, k)`. -/
def mapErase {κ α : Type} [DecidableEq κ] (l : List (κ × α)) (k : κ) : List (κ × α) :=
  l.filter (fun e => ¬ e.1 = k)

/-- Go map assignment: `m[k] = v` (replaces any existing binding). -/
def mapInsert {κ α : Type} [DecidableEq κ] (l : List (κ × α)) (k : κ) (v : α) :
    List (κ × α) :=
  (k, v) :: mapErase l k

/-- Socket.IO packet types, from the parser package
(`parser.PacketTypeConnect` … `parser.PacketTypeBinaryAck`). -/
inductive PacketType
  | connect
  | disconnect
  | event
  | ack
  | connectError
  | binaryEvent
  | binaryAck
deriving DecidableEq, Repr

/-- A Go `interface{}` value as it appears in packet payloads: a string,
a function-like callable (`reflect.Kind() == reflect.Func`), or anything
else (opaque). -/
inductive GoValue
  | str (s : String)
  | fn (f : Nat)
  | other (o : Nat)
deriving DecidableEq, Repr

/-- `parser.PacketHeader`: type, namespace, optional ack ID (`*uint64`). -/
structure PacketHeader where
  type : PacketType
  nsp : String
  id : Option Nat
deriving DecidableEq, Repr

/-- `adapter.BroadcastOptions`: the two room sets used by
`shouldIncludePacket` (`mapset.Set[Room]`, embedded as lists;
`Contains` is membership, `Cardinality() == 0` is emptiness). -/
structure BroadcastOptions where
  rooms : List String
  except : List String
deriving DecidableEq, Repr

/-- `PersistedPacket` (src/unnamed/part_000): offset ID, emission
timestamp, broadcast options, optional packet header (`*parser.PacketHeader`,
Go zero value `nil` is `none`), payload. -/
structure PersistedPacket where
  id : String
  emittedAt : Int
  opts : BroadcastOptions
  header : Option PacketHeader
  data : List GoValue
deriving DecidableEq, Repr

/-- `PersistedPacket.HasExpired` (src/unnamed/part_000 lines 76-78), as
written in the source:
`return time.Now().Before(p.EmittedAt.Add(maxDisconnectDuration))`. -/
def PersistedPacket.HasExpired (p : PersistedPacket) (now maxDisconnectDuration : Int) :
    Bool :=
  now < p.emittedAt + maxDisconnectDuration

/-- The expiry predicate as the specification states it: a packet is
expired exactly when the current time is after `EmittedAt`
plus `maxDisconnectDuration`. -/
def PersistedPacket.specExpired (p : PersistedPacket) (now maxDisconnectDuration : Int) :
    Bool :=
  p.emittedAt + maxDisconnectDuration < now

/-- `adapter.SessionToPersist` as used by the session-aware adapter:
socket ID, private session ID, room snapshot, missed packets. -/
structure SessionToPersist where
  sid : String
  pid : String
  rooms : List String
  missedPackets : List PersistedPacket
deriving DecidableEq, Repr

/-- `sessionWithTimestamp` (adapter/adapter_session_aware.go lines 11-14). -/
structure SessionWithTimestamp where
  sessionToPersist : SessionToPersist
  disconnectedAt : Int
deriving DecidableEq, Repr

/-- `sessionWithTimestamp.hasExpired` (adapter/adapter_session_aware.go
lines 16-18): `time.Now().After(s.DisconnectedAt.Add(maxDisconnectDuration))`. -/
def SessionWithTimestamp.hasExpired (s : SessionWithTimestamp)
    (now maxDisconnectDuration : Int) : Bool :=
  s.disconnectedAt + maxDisconnectDuration < now

/-- The mutable state of `sessionAwareAdapter`
(adapter/adapter_session_aware.go lines 20-29): the configured
`maxDisconnectDuration`, the yeast counter, the session map and the
per-namespace packet buffer. -/
structure SessionAwareAdapter where
  maxDisconnectDuration : Int
  yeaster : Nat
  sessions : List (String × SessionWithTimestamp)
  packets : List PersistedPacket
deriving DecidableEq, Repr

/-- The yeast alphabet of github.com/tomruk/yeast (base-64, URL safe). -/
def yeastAlphabet : List Char :=
  "0123456789ABCDEFGHIJKLMNOPQRSTUVWXYZabcdefghijklmnopqrstuvwxyz-_".toList

/-- Base-64 digits of `n` in the yeast alphabet, most significant first. -/
def yeastEncodeAux (n : Nat) (acc : List Char) : List Char :=
  let d := yeastAlphabet.getD (n % 64) '0'
  if h : n / 64 = 0 then d :: acc
  else yeastEncodeAux (n / 64) (d :: acc)
decreasing_by
  exact Nat.div_lt_self (Nat.pos_of_ne_zero (fun hz => h (by simp [hz]))) (by decide)

/-- Modelled from the spec: `yeaster.Yeast()` of github.com/tomruk/yeast
(an external dependency) returns "a monotonic compact offset ID (base-64
yeast)"; the yeaster state is embedded as a counter and each call encodes
and increments it. -/
def yeastEncode (n : Nat) : String :=
  ⟨yeastEncodeAux n []⟩

/-- `shouldIncludePacket` (adapter/adapter_session_aware.go lines 115-134). -/
def shouldIncludePacket (sessionRooms : List String) (opts : BroadcastOptions) : Bool :=
  let included := sessionRooms.any (fun sessionRoom => opts.rooms.contains sessionRoom)
  let included := opts.rooms.length == 0 || included
  let notExcluded := ¬ sessionRooms.any (fun sessionRoom => opts.except.contains sessionRoom)
  included && notExcluded

/-- The inclusion filter as the specification words it: a packet is
included iff its options' Rooms set is empty or shares at least one room
with the session's rooms, and its options' Except set shares none. -/
def specIncludePacket (sessionRooms : List String) (opts : BroadcastOptions) : Prop :=
  (opts.rooms = [] ∨ ∃ r ∈ sessionRooms, r ∈ opts.rooms) ∧
    ∀ r ∈ sessionRooms, r ∉ opts.except

instance (sessionRooms : List String) (opts : BroadcastOptions) :
    Decidable (specIncludePacket sessionRooms opts) := by
  unfold specIncludePacket; infer_instance

/-- `sessionAwareAdapter.PersistSession`
(adapter/adapter_session_aware.go lines 67-75). -/
def PersistSession (now : Int) (a : SessionAwareAdapter) (session : SessionToPersist) :
    SessionAwareAdapter :=
  let sessionWithTS : SessionWithTimestamp :=
    { sessionToPersist := session, disconnectedAt := now }
  { a with sessions := mapInsert a.sessions session.pid sessionWithTS }

/-- `sessionAwareAdapter.RestoreSession`
(adapter/adapter_session_aware.go lines 77-113).  Returns the restored
session (if any) and the post-call adapter state.  The source returns a
pointer into the stored session and assigns its `MissedPackets` field, so
the store keeps the (updated) session on success. -/
def RestoreSession (now : Int) (a : SessionAwareAdapter) (pid offset : String) :
    Option SessionToPersist × SessionAwareAdapter :=
  match mapLookup a.sessions pid with
  | none => (none, a)
  | some sessionWithTS =>
    if sessionWithTS.hasExpired now a.maxDisconnectDuration then
      (none, { a with sessions := mapErase a.sessions pid })
    else
      match a.packets.findIdx? (fun packet => packet.id = offset) with
      | none => (none, a)
      | some index =>
        let missedPackets := (a.packets.drop (index + 1)).filter
          (fun packet => shouldIncludePacket sessionWithTS.sessionToPersist.rooms packet.opts)
        let session := { sessionWithTS.sessionToPersist with missedPackets := missedPackets }
        let stored := { sessionWithTS with sessionToPersist := session }
        (some session, { a with sessions := mapInsert a.sessions pid stored })

/-- `sessionAwareAdapter.Broadcast`
(adapter/adapter_session_aware.go lines 136-154): persists qualifying
event packets, appending the yeast offset ID to the payload; returns the
new adapter state and the payload handed on to the in-memory adapter. -/
def Broadcast (now : Int) (a : SessionAwareAdapter) (header : PacketHeader)
    (v : List GoValue) (opts : BroadcastOptions) : SessionAwareAdapter × List GoValue :=
  let isEventPacket := header.type == PacketType.event
  let withoutAcknowledgement := header.id == none
  if isEventPacket && withoutAcknowledgement then
    let id := yeastEncode a.yeaster
    let v := v ++ [GoValue.str id]
    let packet : PersistedPacket :=
      { id := id, opts := opts, emittedAt := now, header := none, data := v }
    ({ a with yeaster := a.yeaster + 1, packets := a.packets ++ [packet] }, v)
  else
    (a, v)

/-- Removes the element at the greatest index satisfying `pred`, if one
exists: the backwards scan of `sessionAwareAdapter.cleaner`, which splices
out the first matching packet (scanning from the tail) and breaks. -/
def removeLastMatching {α : Type} (pred : α → Bool) : List α → Option (List α)
  | [] => none
  | x :: xs =>
    match removeLastMatching pred xs with
    | some xs => some (x :: xs)
    | none => if pred x then some xs else none

/-- One pass of `sessionAwareAdapter.cleaner`
(adapter/adapter_session_aware.go lines 45-65): drop expired sessions,
then scan the packet buffer from the tail and remove the first packet for
which `HasExpired` holds (the loop breaks after one removal). -/
def cleanerPass (now : Int) (a : SessionAwareAdapter) : SessionAwareAdapter :=
  let sessions := a.sessions.filter
    (fun e => ¬ e.2.hasExpired now a.maxDisconnectDuration)
  let packets :=
    match removeLastMatching (fun packet => packet.HasExpired now a.maxDisconnectDuration)
        a.packets with
    | some packets => packets
    | none => a.packets
  { a with sessions := sessions, packets := packets }

/-- Modelled from the spec: `IsEventReservedForServer` (its definition is
not among the given sources; socket_server.go calls it) — the reserved
server-side event names of section 4.6: `connect`, `connect_error`,
`disconnect`, `disconnecting`, `newListener`, `removeListener`. -/
def isEventReservedForServer (eventName : String) : Bool :=
  eventName == "connect" || eventName == "connect_error" ||
    eventName == "disconnect" || eventName == "disconnecting" ||
    eventName == "newListener" || eventName == "removeListener"

/-- The ack-related state of `serverSocket` (socket_server.go lines 12-25):
the ack table (`acks map[uint64]*ackHandler`, a Go map whose zero value is
`nil`, embedded as `Option`) and the ack counter (`ackID uint64`). -/
structure ServerSocketAckState where
  acks : Option (List (Nat × Nat))
  ackID : Nat
deriving DecidableEq, Repr

/-- The ack state produced by `newServerSocket` (socket_server.go lines
27-42): the composite literal omits the `acks` field, so it keeps its Go
zero value `nil`, and `ackID` starts at 0. -/
def newServerSocketAckState : ServerSocketAckState :=
  { acks := none, ackID := 0 }

/-- `serverSocket.sendDataPacket` (socket_server.go lines 231-269),
embedded as a function of the ack state, the namespace name, the packet
type, the event name and the values.  Returns the new ack state, the
header and the payload handed to the parser, or the panic message:
emitting a reserved event panics, and so does the Go runtime on
`s.acks[id] = ackHandler` when the `acks` map is `nil`. -/
def sendDataPacket (st : ServerSocketAckState) (nspName : String) (typ : PacketType)
    (eventName : String) (values : List GoValue) :
    Except String (ServerSocketAckState × PacketHeader × List GoValue) :=
  let header : PacketHeader := { type := typ, nsp := nspName, id := none }
  if isEventReservedForServer eventName then
    Except.error "sio: Emit: attempted to emit a reserved event"
  else
    let v := GoValue.str eventName :: values
    match v.getLast? with
    | some (GoValue.fn f) =>
      match st.acks with
      | none => Except.error "assignment to entry in nil map"
      | some acks =>
        let id := st.ackID
        let st := { acks := some (mapInsert acks id f), ackID := st.ackID + 1 }
        Except.ok (st, { header with id := some id }, v.dropLast)
    | _ => Except.ok (st, header, v)

/-- The namespace-resolution state of `Server` (src/unnamed/part_001):
the `acceptAnyNamespace` flag and the namespace store, embedded as a map
from namespace name to an opaque namespace token (`Nat`). -/
structure ServerNspState where
  acceptAnyNamespace : Bool
  namespaces : List (List Char × Nat)
deriving DecidableEq, Repr

/-- `namespaceStore.GetOrCreate`: return the namespace stored under
`name`, creating a fresh one if absent. -/
def namespacesGetOrCreate (store : List (List Char × Nat)) (name : List Char) :
    Nat × List (List Char × Nat) :=
  match mapLookup store name with
  | some nsp => (nsp, store)
  | none => (store.length, store ++ [(name, store.length)])

/-- The name normalization of `Server.Of` (src/unnamed/part_001 lines
151-156): `if len(namespace) != 0 && namespace[0] != '/' { namespace =
"/" + namespace }`.  Go strings are embedded as `List Char`. -/
def normalizeNamespace (nsp : List Char) : List Char :=
  match nsp with
  | [] => nsp
  | c :: _ => if c != '/' then '/' :: nsp else nsp

/-- `Server.Of` (src/unnamed/part_001 lines 151-156): normalize the name
and look up or create the namespace. -/
def serverOf (s : ServerNspState) (nsp : List Char) : Nat × ServerNspState :=
  let (namespaceValue, namespaces) :=
    namespacesGetOrCreate s.namespaces (normalizeNamespace nsp)
  (namespaceValue, { s with namespaces := namespaces })

/-- The namespace resolution performed by `serverConn.connect`
(server_conn.go lines 132-164, specifically line 148): the handler calls
`c.server.Of(header.Namespace)` unconditionally — `acceptAnyNamespace` is
never consulted on this path. -/
def serverConnConnectNsp (s : ServerNspState) (headerNamespace : List Char) :
    Nat × ServerNspState :=
  serverOf s headerNamespace

/-- Engine.IO packet types (engine.io/parser): OPEN, CLOSE, PING, PONG,
MESSAGE, UPGRADE, NOOP (`opn`/`cls` stand for OPEN/CLOSE, which are Lean
keywords). -/
inductive EIOPacketType
  | opn
  | cls
  | ping
  | pong
  | message
  | upgrade
  | noop
deriving DecidableEq, Repr

/-- An Engine.IO packet: type plus payload bytes (as a string). -/
structure EIOPacket where
  type : EIOPacketType
  payload : String
deriving DecidableEq, Repr

/-- `ServerError` of the Engine.IO server: `{code, message}` JSON body. -/
structure ServerError where
  code : Nat
  message : String
deriving DecidableEq, Repr

/-- Modelled from the spec: the `serverErrors` entry
`ErrorUnsupportedProtocolVersion` (its definition is not among the given
sources; part_002's tests index `serverErrors` with it) — error code 5,
"Unsupported protocol version". -/
def errorUnsupportedProtocolVersion : ServerError :=
  { code := 5, message := "Unsupported protocol version" }

/-- Modelled from the spec: the `serverErrors` entry `ErrorUnknownSID` —
error code 1, "Session unknown". -/
def errorUnknownSID : ServerError :=
  { code := 1, message := "Session unknown" }

/-- What `Server.ServeHTTP` does with a request: write an HTTP response
directly, enter the handshake path, enter the upgrade path, or hand the
request to the session's current transport. -/
inductive ServeResult
  | response (status : Nat) (body : Option ServerError)
  | handshake
  | upgradeAttempt (sid transportName : String)
  | transportServe (sid : String)
deriving DecidableEq, Repr

/-- Modelled from the spec: `writeServerError` (its definition is not
among the given sources; part_002's tests pin its behavior) — "Error
responses (HTTP 400 with JSON body {code,message})". -/
def writeServerError (e : ServerError) : ServeResult :=
  ServeResult.response 400 (some e)

/-- Modelled from the spec: the `ProtocolVersion` constant (its
definition is not among the given sources) — "EIO (protocol version, must
equal 4)". -/
def ProtocolVersion : Int := 4

/-- Decimal digits to a natural number (`strconv` helper). -/
def digitsToNat? (cs : List Char) : Option Nat :=
  if cs.isEmpty then none
  else if cs.all Char.isDigit then
    some (cs.foldl (fun acc c => acc * 10 + (c.toNat - 48)) 0)
  else none

/-- Go's `strconv.Atoi` on a 64-bit platform: optional sign, decimal
digits, error (`none`) on empty input, stray characters or values outside
the `int64` range. -/
def goAtoi (s : String) : Option Int :=
  let signAndDigits : Bool × List Char :=
    match s.data with
    | '+' :: rest => (false, rest)
    | '-' :: rest => (true, rest)
    | cs => (false, cs)
  match digitsToNat? signAndDigits.2 with
  | none => none
  | some n =>
    if signAndDigits.1 then
      if n ≤ 2 ^ 63 then some (-(n : Int)) else none
    else
      if n < 2 ^ 63 then some (n : Int) else none

/-- An Engine.IO HTTP request as `Server.ServeHTTP` reads it: the `EIO`,
`sid` and `transport` query parameters (`url.Query().Get` yields `""` for
an absent parameter). -/
structure EIORequest where
  eio : String
  sid : String
  transport : String
deriving DecidableEq, Repr

/-- `Server.ServeHTTP` (src/unnamed/part_002 lines 978-1018), embedded as
a function of the closed flag, the session store (sid → current transport
name) and the request.  418 when closed; error 5 when `EIO` does not
parse or differs from `ProtocolVersion`; the handshake path when `sid` is
absent; error 1 for an unknown sid; otherwise the upgrade path or the
current transport. -/
def ServeHTTP (closed : Bool) (store : List (String × String)) (req : EIORequest) :
    ServeResult :=
  if closed then
    ServeResult.response 418 none
  else
    match goAtoi req.eio with
    | none => writeServerError errorUnsupportedProtocolVersion
    | some version =>
      if version != ProtocolVersion then
        writeServerError errorUnsupportedProtocolVersion
      else if req.sid == "" then
        ServeResult.handshake
      else
        match mapLookup store req.sid with
        | none => writeServerError errorUnknownSID
        | some transportName =>
          if transportName != req.transport then
            ServeResult.upgradeAttempt req.sid req.transport
          else
            ServeResult.transportServe req.sid

/-- The observable state of one `Server.maybeUpgrade` exchange
(src/unnamed/part_002 lines 1106-1170): whether the single-fire `done`
signal fired (`once.Do(func() { close(done) })`), whether the new
websocket transport was closed, whether the socket swapped onto the new
transport, whether the old transport was closed, and the packets sent on
each transport. -/
structure UpgradeState where
  doneFired : Bool
  newTransportClosed : Bool
  activeIsNew : Bool
  oldTransportClosed : Bool
  sentOnNew : List EIOPacket
  sentOnOld : List EIOPacket
deriving DecidableEq, Repr

/-- The state right after `t.Handshake` succeeds in `maybeUpgrade`. -/
def initialUpgradeState : UpgradeState :=
  { doneFired := false, newTransportClosed := false, activeIsNew := false,
    oldTransportClosed := false, sentOnNew := [], sentOnOld := [] }

/-- An event of the upgrade exchange: a packet received on the new
transport, or the `upgradeTimeout` timer firing (the `time.After` branch
of the `select`, which runs only if `done` has not yet fired). -/
inductive UpgradeEvent
  | recv (p : EIOPacket)
  | timeout
deriving DecidableEq, Repr

/-- The `onPacket` closure of `maybeUpgrade` (src/unnamed/part_002 lines
1136-1161): PING sends PONG("probe") on the new transport and a NOOP
through the socket's currently active transport; UPGRADE fires `done` and
calls `socket.upgradeTo(t, c)` — modelled from the spec, whose upgrade
section states "the old transport is closed and the connection swaps its
active transport" (`upgradeTo` itself is not among the given sources);
any other packet closes the new transport. -/
def upgradeOnPacket (st : UpgradeState) (p : EIOPacket) : UpgradeState :=
  match p.type with
  | EIOPacketType.ping =>
    let pong : EIOPacket := { type := EIOPacketType.pong, payload := "probe" }
    let noop : EIOPacket := { type := EIOPacketType.noop, payload := "" }
    { st with sentOnNew := st.sentOnNew ++ [pong], sentOnOld := st.sentOnOld ++ [noop] }
  | EIOPacketType.upgrade =>
    { st with doneFired := true, activeIsNew := true, oldTransportClosed := true }
  | _ =>
    { st with newTransportClosed := true }

/-- One step of the upgrade exchange: dispatch a received packet to
`onPacket`, or run the timeout branch (`t.Close()` unless `done` already
fired). -/
def upgradeStep (st : UpgradeState) (ev : UpgradeEvent) : UpgradeState :=
  match ev with
  | UpgradeEvent.recv p => upgradeOnPacket st p
  | UpgradeEvent.timeout =>
    if st.doneFired then st else { st with newTransportClosed := true }

/-- Run a sequence of upgrade events from a state. -/
def upgradeRun (st : UpgradeState) (evs : List UpgradeEvent) : UpgradeState :=
  evs.foldl upgradeStep st

lemma mapLookup_insert_self {κ α : Type} [DecidableEq κ] (l : List (κ × α)) (k : κ)
    (v : α) : mapLookup (mapInsert l k v) k = some v := by
  simp [mapLookup, mapInsert, List.find?]

lemma mapLookup_erase_self {κ α : Type} [DecidableEq κ] (l : List (κ × α)) (k : κ) :
    mapLookup (mapErase l k) k = none := by
  induction l with
  | nil => rfl
  | cons x xs ih =>
    by_cases hx : x.1 = k
    · simp only [mapErase, List.filter] at ih ⊢
      simpa [hx] using ih
    · simp only [mapErase, List.filter] at ih ⊢
      simp only [mapLookup, List.find?, hx] at ih ⊢
      simp only [decide_eq_true_eq, hx, decide_False]
      exact ih

lemma mapLookup_append_single {κ α : Type} [DecidableEq κ] (l : List (κ × α))
    (k k' : κ) (v : α) (h : mapLookup l k' = none) :
    mapLookup (l ++ [(k, v)]) k' = if k = k' then some v else none := by
  induction l with
  | nil =>
    by_cases hk : k = k' <;> simp [mapLookup, List.find?, hk]
  | cons x xs ih =>
    by_cases hx : x.1 = k'
    · simp [mapLookup, List.find?, hx] at h
    · have h' : mapLookup xs k' = none := by
        simpa [mapLookup, List.find?, hx] using h
      simpa [mapLookup, List.find?, hx] using ih h'

lemma findIdxQ_eq_none {α : Type} (p : α → Bool) (l : List α)
    (h : ∀ x ∈ l, p x = false) : l.findIdx? p = none := by
  induction l with
  | nil => rfl
  | cons x xs ih =>
    have hx := h x (by simp)
    simp [List.findIdx?_cons, hx, ih (fun y hy => h y (by simp [hy]))]

/-- Empty broadcast options: `NewBroadcastOptions()` with no rooms added. -/
def emptyOpts : BroadcastOptions := { rooms := [], except := [] }

/-- A packet emitted at time 0 (long expired at time 100 under a
5-nanosecond `maxDisconnectDuration`). -/
def c1PacketOld : PersistedPacket :=
  { id := "old", emittedAt := 0, opts := emptyOpts, header := none, data := [] }

/-- A packet emitted at time 99 (not expired at time 100). -/
def c1PacketFresh : PersistedPacket :=
  { id := "fresh", emittedAt := 99, opts := emptyOpts, header := none, data := [] }

/-- Adapter state holding one expired and one fresh packet. -/
def c1Adapter : SessionAwareAdapter :=
  { maxDisconnectDuration := 5, yeaster := 0, sessions := [],
    packets := [c1PacketOld, c1PacketFresh] }

/-- C1: the claim fails on the code.  The claim reads `HasExpired(d)` as
"true iff now is after EmittedAt + d" (`specExpired`), but the source
tests `time.Now().Before(...)`, the exact opposite on every non-boundary
input: at `now = 100` the packet emitted at 0 is expired under `d = 5`
yet `HasExpired` answers `false`, while the packet emitted at 99 is not
expired yet `HasExpired` answers `true`.  Consequently a sweeper pass
over `[old, fresh]` removes the unexpired packet and keeps the expired
one — the opposite of "removes every expired buffered packet, and
nothing that is not expired" (it also removes at most one packet per
pass, since the scan breaks after the first splice). -/
theorem hasExpired_cleaner_divergence :
    c1PacketOld.specExpired 100 5 = true ∧
    c1PacketOld.HasExpired 100 5 = false ∧
    c1PacketFresh.specExpired 100 5 = false ∧
    c1PacketFresh.HasExpired 100 5 = true ∧
    (cleanerPass 100 c1Adapter).packets = [c1PacketOld] := by
  decide

/-- A server created with `acceptAnyNamespace` disabled and no
namespaces. -/
def c3Server : ServerNspState := { acceptAnyNamespace := false, namespaces := [] }

/-- C3: the claim fails on the code.  `serverConn.connect` resolves the
addressed namespace by calling `Server.Of`, which looks up or creates
unconditionally; the `acceptAnyNamespace` flag is never consulted, so a
CONNECT for the unknown namespace "/unknown" creates it even though the
flag is false. -/
theorem connect_creates_namespace_unconditionally :
    c3Server.acceptAnyNamespace = false ∧
    mapLookup c3Server.namespaces "/unknown".toList = none ∧
    mapLookup (serverConnConnectNsp c3Server "/unknown".toList).2.namespaces
        "/unknown".toList = some 0 := by
  decide

/-- C5: the claim fails on the code.  `newServerSocket` never initializes
the `acks` map (its composite literal omits the field, leaving the Go
zero value `nil`), so the very first data-packet emission whose final
value is a function reaches `s.acks[id] = ackHandler` and the Go runtime
panics with an assignment to an entry in a nil map: the callback is never
stored and no packet is emitted. -/
theorem sendDataPacket_nil_ack_map :
    sendDataPacket newServerSocketAckState "/" PacketType.event "hello" [GoValue.fn 0] =
      Except.error "assignment to entry in nil map" := by
  rfl

/-- C10: `Server.Of` prefixes a missing leading slash onto non-empty
names, so a non-empty name not beginning with a slash resolves exactly as
its slash-prefixed form — same namespace, same resulting store; the empty
string takes the `len(namespace) != 0` guard's other side and is looked
up or created verbatim, leaving any "/" entry untouched. -/
theorem of_namespace_normalization (s : ServerNspState) (c : Char) (rest : List Char)
    (hc : c ≠ '/') :
    serverOf s (c :: rest) = serverOf s ('/' :: c :: rest) ∧
    mapLookup ((serverOf s []).2).namespaces [] ≠ none ∧
    (mapLookup s.namespaces ['/'] = none →
      mapLookup ((serverOf s []).2).namespaces ['/'] = none) := by
  refine ⟨?_, ?_, ?_⟩
  · have h1 : normalizeNamespace (c :: rest) = '/' :: c :: rest := by
      simp [normalizeNamespace, hc]
    have h2 : normalizeNamespace ('/' :: c :: rest) = '/' :: c :: rest := by
      simp [normalizeNamespace]
    simp [serverOf, h1, h2]
  · have h0 : normalizeNamespace [] = [] := rfl
    simp only [serverOf, h0]
    rcases hl : mapLookup s.namespaces ([] : List Char) with _ | nsp
    · simp only [namespacesGetOrCreate, hl]
      rw [mapLookup_append_single s.namespaces [] [] s.namespaces.length hl]
      simp
    · simp [namespacesGetOrCreate, hl]
  · intro hslash
    have h0 : normalizeNamespace [] = [] := rfl
    simp only [serverOf, h0]
    rcases hl : mapLookup s.namespaces ([] : List Char) with _ | nsp
    · simp only [namespacesGetOrCreate, hl]
      rw [mapLookup_append_single s.namespaces [] ['/'] s.namespaces.length hslash]
      simp
    · simpa [namespacesGetOrCreate, hl] using hslash

/-- C10 witness: the theorem at the empty server, name "foo". -/
theorem of_namespace_normalization_witness :
    serverOf c3Server ('f' :: "oo".toList) = serverOf c3Server ('/' :: 'f' :: "oo".toList) ∧
    mapLookup ((serverOf c3Server []).2).namespaces [] ≠ none ∧
    (mapLookup c3Server.namespaces ['/'] = none →
      mapLookup ((serverOf c3Server []).2).namespaces ['/'] = none) :=
  of_namespace_normalization c3Server 'f' "oo".toList (by decide)

/-- A session stored under "p1", disconnected at time 0. -/
def c6Session : SessionToPersist :=
  { sid := "s1", pid := "p1", rooms := ["r1"], missedPackets := [] }

/-- Adapter holding the unexpired session "p1" and one buffered packet
whose ID "a" will serve as the offset. -/
def c6Adapter : SessionAwareAdapter :=
  { maxDisconnectDuration := 100, yeaster := 0,
    sessions := [("p1", { sessionToPersist := c6Session, disconnectedAt := 0 })],
    packets := [{ id := "a", emittedAt := 1, opts := emptyOpts, header := none,
                  data := [] }] }

/-- C6 counterexample: at time 10 the session "p1" is unexpired and the
offset "a" is found, so `RestoreSession` succeeds — yet the session is
still stored under "p1" afterwards, refuting "after RestoreSession
returns a session, no session remains stored under pid" (the source
never deletes on the success path). -/
theorem restoreSession_no_eviction_on_success :
    (RestoreSession 10 c6Adapter "p1" "a").1.isSome = true ∧
    ¬ mapLookup (RestoreSession 10 c6Adapter "p1" "a").2.sessions "p1" = none := by
  decide

/-- C6 (amended): a persisted session is evicted from the session store
when `RestoreSession` finds it expired — no session remains stored under
`pid` — while a successful restore leaves the session stored under `pid`
(likewise, the sweeper evicts expired sessions; the restore path never
evicts on success). -/
theorem restoreSession_eviction (now : Int) (a : SessionAwareAdapter)
    (pid offset : String) :
    (∀ swts, mapLookup a.sessions pid = some swts →
      swts.hasExpired now a.maxDisconnectDuration = true →
      mapLookup (RestoreSession now a pid offset).2.sessions pid = none) ∧
    (∀ s, (RestoreSession now a pid offset).1 = some s →
      ¬ mapLookup (RestoreSession now a pid offset).2.sessions pid = none) := by
  constructor
  · intro swts hfound hexp
    simp only [RestoreSession, hfound, hexp, if_true]
    exact mapLookup_erase_self a.sessions pid
  · intro s hs
    rcases hfound : mapLookup a.sessions pid with _ | swts
    · simp [RestoreSession, hfound] at hs
    · rcases hexp : swts.hasExpired now a.maxDisconnectDuration with _ | _
      · rcases hidx : a.packets.findIdx? (fun packet => packet.id = offset) with _ | index
        · simp [RestoreSession, hfound, hexp, hidx] at hs
        · simp only [RestoreSession, hfound, hexp, hidx, Bool.false_eq_true, if_false]
          rw [mapLookup_insert_self]
          simp
      · simp [RestoreSession, hfound, hexp] at hs

/-- C6 witness: the amended theorem applied to `c6Adapter`: restoring the
expired session at time 1000 evicts it; the successful restore at time 10
leaves it stored. -/
theorem restoreSession_eviction_witness :
    mapLookup (RestoreSession 1000 c6Adapter "p1" "a").2.sessions "p1" = none ∧
    ¬ mapLookup (RestoreSession 10 c6Adapter "p1" "a").2.sessions "p1" = none := by
  constructor
  · exact (restoreSession_eviction 1000 c6Adapter "p1" "a").1
      { sessionToPersist := c6Session, disconnectedAt := 0 } (by decide) (by decide)
  · exact (restoreSession_eviction 10 c6Adapter "p1" "a").2
      { c6Session with missedPackets := [] } (by decide)

/-- C9: with a stored, unexpired session under `pid` and an offset that
matches no buffered packet's ID, `RestoreSession` reports failure and
leaves the adapter state — in particular the session stored under
`pid` — exactly as it was. -/
theorem restoreSession_offset_not_found (now : Int) (a : SessionAwareAdapter)
    (pid offset : String) (swts : SessionWithTimestamp)
    (hfound : mapLookup a.sessions pid = some swts)
    (hfresh : swts.hasExpired now a.maxDisconnectDuration = false)
    (hoff : ∀ p ∈ a.packets, p.id ≠ offset) :
    RestoreSession now a pid offset = (none, a) := by
  have hidx : a.packets.findIdx? (fun packet => packet.id = offset) = none :=
    findIdxQ_eq_none _ _ (fun p hp => by simp [hoff p hp])
  simp [RestoreSession, hfound, hfresh, hidx]

/-- C9 witness: the theorem at `c6Adapter` with the unmatched offset
"zzz". -/
theorem restoreSession_offset_not_found_witness :
    RestoreSession 10 c6Adapter "p1" "zzz" = (none, c6Adapter) :=
  restoreSession_offset_not_found 10 c6Adapter "p1" "zzz"
    { sessionToPersist := c6Session, disconnectedAt := 0 }
    (by decide) (by decide) (by decide)

lemma shouldIncludePacket_iff (rooms : List String) (opts : BroadcastOptions) :
    shouldIncludePacket rooms opts = true ↔ specIncludePacket rooms opts := by
  unfold shouldIncludePacket specIncludePacket
  simp [List.any_eq_true, List.elem_iff, List.contains, List.length_eq_zero,
    not_exists]

lemma shouldIncludePacket_eq_decide (rooms : List String) (opts : BroadcastOptions) :
    shouldIncludePacket rooms opts = decide (specIncludePacket rooms opts) := by
  by_cases h : specIncludePacket rooms opts
  · simp [h, (shouldIncludePacket_iff rooms opts).2 h]
  · have hne := (shouldIncludePacket_iff rooms opts).not.2 h
    simp only [Bool.not_eq_true] at hne
    simp [h, hne]

/-- C2: `RestoreSession` returns no session when none is stored under
`pid` or the stored one's `DisconnectedAt` is more than
`maxDisconnectDuration` in the past; otherwise, when the buffer holds an
entry whose ID equals `offset`, it returns the stored session whose
missed packets are exactly the buffered packets strictly after that
entry, in buffer order, that pass the spec's inclusion filter
(`specIncludePacket`: the options' Rooms set is empty or meets the
session's rooms, and the options' Except set misses them all). -/
theorem restoreSession_missed_packets (now : Int) (a : SessionAwareAdapter)
    (pid offset : String) :
    (mapLookup a.sessions pid = none → (RestoreSession now a pid offset).1 = none) ∧
    (∀ swts, mapLookup a.sessions pid = some swts →
      (swts.disconnectedAt + a.maxDisconnectDuration < now →
        (RestoreSession now a pid offset).1 = none) ∧
      (¬ swts.disconnectedAt + a.maxDisconnectDuration < now →
        ∀ index, a.packets.findIdx? (fun packet => packet.id = offset) = some index →
          (RestoreSession now a pid offset).1 = some
            { sid := swts.sessionToPersist.sid, pid := swts.sessionToPersist.pid,
              rooms := swts.sessionToPersist.rooms,
              missedPackets := (a.packets.drop (index + 1)).filter
                (fun packet =>
                  decide (specIncludePacket swts.sessionToPersist.rooms packet.opts)) })) := by
  constructor
  · intro h
    simp [RestoreSession, h]
  · intro swts hfound
    constructor
    · intro hexp
      have hE : swts.hasExpired now a.maxDisconnectDuration = true := by
        simp [SessionWithTimestamp.hasExpired, hexp]
      simp [RestoreSession, hfound, hE]
    · intro hexp index hidx
      have hE : swts.hasExpired now a.maxDisconnectDuration = false := by
        simp [SessionWithTimestamp.hasExpired, hexp]
      have hfilter : (a.packets.drop (index + 1)).filter
            (fun packet => shouldIncludePacket swts.sessionToPersist.rooms packet.opts) =
          (a.packets.drop (index + 1)).filter
            (fun packet =>
              decide (specIncludePacket swts.sessionToPersist.rooms packet.opts)) :=
        List.filter_congr (fun p _ => shouldIncludePacket_eq_decide _ _)
      simp only [RestoreSession, hfound, hE, Bool.false_eq_true, if_false, hidx]
      rw [hfilter]

/-- Buffered packet "a": the restore offset. -/
def c2P0 : PersistedPacket :=
  { id := "a", emittedAt := 1, opts := emptyOpts, header := none,
    data := [GoValue.str "hello"] }

/-- Buffered packet "b": empty Rooms, no Except — included. -/
def c2P1 : PersistedPacket :=
  { id := "b", emittedAt := 2, opts := emptyOpts, header := none,
    data := [GoValue.str "all"] }

/-- Buffered packet "c": Rooms {r1}, shared with the session — included. -/
def c2P2 : PersistedPacket :=
  { id := "c", emittedAt := 3, opts := { rooms := ["r1"], except := [] },
    header := none, data := [GoValue.str "room"] }

/-- Buffered packet "d": Except {r2}, which the session is in — excluded. -/
def c2P3 : PersistedPacket :=
  { id := "d", emittedAt := 4, opts := { rooms := [], except := ["r2"] },
    header := none, data := [GoValue.str "except"] }

/-- Buffered packet "e": Except {r3}, disjoint from the session — included. -/
def c2P4 : PersistedPacket :=
  { id := "e", emittedAt := 5, opts := { rooms := [], except := ["r3"] },
    header := none, data := [GoValue.str "no except"] }

/-- Adapter with a session in rooms {r1, r2} and the five buffered
packets above. -/
def c2Adapter : SessionAwareAdapter :=
  { maxDisconnectDuration := 100, yeaster := 0,
    sessions := [("p1",
      { sessionToPersist :=
          { sid := "s1", pid := "p1", rooms := ["r1", "r2"], missedPackets := [] },
        disconnectedAt := 0 })],
    packets := [c2P0, c2P1, c2P2, c2P3, c2P4] }

/-- C2 witness: restoring from offset "a" at time 10 yields the session
with missed packets exactly ["b", "c", "e"], in emission order. -/
theorem restoreSession_missed_packets_witness :
    (RestoreSession 10 c2Adapter "p1" "a").1 = some
      { sid := "s1", pid := "p1", rooms := ["r1", "r2"],
        missedPackets := [c2P1, c2P2, c2P4] } := by
  have h := ((restoreSession_missed_packets 10 c2Adapter "p1" "a").2
    { sessionToPersist :=
        { sid := "s1", pid := "p1", rooms := ["r1", "r2"], missedPackets := [] },
      disconnectedAt := 0 } (by decide)).2 (by decide) 0 (by decide)
  exact h.trans (by decide)

/-- An EVENT header without an ack ID (a qualifying broadcast). -/
def c4Header : PacketHeader :=
  { type := PacketType.event, nsp := "/", id := none }

/-- An ACK-type header (a non-qualifying broadcast). -/
def c4AckHeader : PacketHeader :=
  { type := PacketType.ack, nsp := "/", id := none }

/-- An empty session-aware adapter. -/
def c4Adapter : SessionAwareAdapter :=
  { maxDisconnectDuration := 100, yeaster := 0, sessions := [], packets := [] }

/-- C4 counterexample: broadcasting a qualifying EVENT packet appends a
`PersistedPacket` whose header field is `nil` (`none`) — the source's
composite literal never sets `Header` — so the persisted packet does not
record the packet header as the claim states. -/
theorem broadcast_header_not_recorded :
    (Broadcast 5 c4Adapter c4Header [GoValue.str "hello"] emptyOpts).1.packets.map
        PersistedPacket.header = [none] ∧
    ¬ (Broadcast 5 c4Adapter c4Header [GoValue.str "hello"] emptyOpts).1.packets.map
        PersistedPacket.header = [some c4Header] := by
  decide

/-- C4 (amended): a packet is persisted iff the header's type is EVENT
and its ack ID is nil; in that case the freshly generated yeast offset ID
is appended as the payload's final element and a `PersistedPacket`
recording that ID, the emission timestamp, the broadcast options and the
payload — its header field left unset — is appended to the buffer, and
the yeast counter advances; for every other header the buffer, counter
and payload are unchanged. -/
theorem broadcast_persistence (now : Int) (a : SessionAwareAdapter)
    (header : PacketHeader) (v : List GoValue) (opts : BroadcastOptions) :
    (header.type = PacketType.event ∧ header.id = none →
      Broadcast now a header v opts =
        ({ maxDisconnectDuration := a.maxDisconnectDuration, yeaster := a.yeaster + 1,
           sessions := a.sessions,
           packets := a.packets ++
             [{ id := yeastEncode a.yeaster, emittedAt := now, opts := opts,
                header := none,
                data := v ++ [GoValue.str (yeastEncode a.yeaster)] }] },
         v ++ [GoValue.str (yeastEncode a.yeaster)])) ∧
    (¬ (header.type = PacketType.event ∧ header.id = none) →
      Broadcast now a header v opts = (a, v)) := by
  constructor
  · rintro ⟨ht, hid⟩
    simp [Broadcast, ht, hid]
  · intro h
    have hcond : (header.type == PacketType.event && header.id == none) = false := by
      by_cases ht : header.type = PacketType.event
      · by_cases hid : header.id = none
        · exact absurd ⟨ht, hid⟩ h
        · simp [ht, hid]
      · simp [ht]
    simp [Broadcast, hcond]

/-- C4 witness: both sides of the amended theorem at concrete inputs —
the qualifying EVENT broadcast persists the packet (header unset), the
ACK-type broadcast leaves the adapter untouched. -/
theorem broadcast_persistence_witness :
    Broadcast 5 c4Adapter c4Header [GoValue.str "hello"] emptyOpts =
      ({ maxDisconnectDuration := c4Adapter.maxDisconnectDuration,
         yeaster := c4Adapter.yeaster + 1, sessions := c4Adapter.sessions,
         packets := c4Adapter.packets ++
           [{ id := yeastEncode c4Adapter.yeaster, emittedAt := 5, opts := emptyOpts,
              header := none,
              data := [GoValue.str "hello"] ++
                [GoValue.str (yeastEncode c4Adapter.yeaster)] }] },
       [GoValue.str "hello"] ++ [GoValue.str (yeastEncode c4Adapter.yeaster)]) ∧
    Broadcast 5 c4Adapter c4AckHeader [GoValue.str "x"] emptyOpts =
      (c4Adapter, [GoValue.str "x"]) := by
  constructor
  · exact (broadcast_persistence 5 c4Adapter c4Header [GoValue.str "hello"]
      emptyOpts).1 ⟨rfl, rfl⟩
  · exact (broadcast_persistence 5 c4Adapter c4AckHeader [GoValue.str "x"]
      emptyOpts).2 (by simp [c4AckHeader])

lemma upgradeRun_no_upgrade (evs : List UpgradeEvent) (st : UpgradeState)
    (hdone : st.doneFired = false) (hact : st.activeIsNew = false)
    (h : ∀ p, UpgradeEvent.recv p ∈ evs → p.type ≠ EIOPacketType.upgrade) :
    (upgradeRun st evs).doneFired = false ∧ (upgradeRun st evs).activeIsNew = false := by
  induction evs generalizing st with
  | nil => exact ⟨hdone, hact⟩
  | cons ev evs ih =>
    have hstep : (upgradeStep st ev).doneFired = false ∧
        (upgradeStep st ev).activeIsNew = false := by
      cases ev with
      | recv p =>
        have hp := h p (by simp)
        cases htype : p.type
        case upgrade => exact absurd htype hp
        all_goals simp [upgradeStep, upgradeOnPacket, htype, hdone, hact]
      | timeout =>
        simp [upgradeStep, hdone, hact]
    exact ih (upgradeStep st ev) hstep.1 hstep.2
      (fun p hp => h p (by simp [hp]))

/-- C7: during the upgrade exchange, a PING received on the new transport
appends PONG("probe") to the packets sent on the new transport and a NOOP
to those sent on the currently active transport, changing nothing else;
an UPGRADE fires the single-fire completion signal and swaps the socket
onto the new transport (closing the old one); and any run of
non-UPGRADE events followed by the `upgradeTimeout` firing closes the new
transport while the connection stays on the old one. -/
theorem maybeUpgrade_probe_upgrade_timeout :
    (∀ (st : UpgradeState) (p : EIOPacket), p.type = EIOPacketType.ping →
      upgradeStep st (UpgradeEvent.recv p) =
        { st with
            sentOnNew := st.sentOnNew ++ [⟨EIOPacketType.pong, "probe"⟩],
            sentOnOld := st.sentOnOld ++ [⟨EIOPacketType.noop, ""⟩] }) ∧
    (∀ (st : UpgradeState) (p : EIOPacket), p.type = EIOPacketType.upgrade →
      upgradeStep st (UpgradeEvent.recv p) =
        { st with
            doneFired := true, activeIsNew := true, oldTransportClosed := true }) ∧
    (∀ evs : List UpgradeEvent,
      (∀ p, UpgradeEvent.recv p ∈ evs → p.type ≠ EIOPacketType.upgrade) →
      (upgradeRun initialUpgradeState (evs ++ [UpgradeEvent.timeout])).newTransportClosed
          = true ∧
      (upgradeRun initialUpgradeState (evs ++ [UpgradeEvent.timeout])).activeIsNew
          = false) := by
  refine ⟨?_, ?_, ?_⟩
  · intro st p hp
    simp [upgradeStep, upgradeOnPacket, hp]
  · intro st p hp
    simp [upgradeStep, upgradeOnPacket, hp]
  · intro evs h
    have hrun := upgradeRun_no_upgrade evs initialUpgradeState rfl rfl h
    have happ : upgradeRun initialUpgradeState (evs ++ [UpgradeEvent.timeout]) =
        upgradeStep (upgradeRun initialUpgradeState evs) UpgradeEvent.timeout := by
      simp [upgradeRun, List.foldl_append]
    rw [happ]
    simp [upgradeStep, hrun.1, hrun.2]

/-- C7 witness: the theorem at the initial state and the probe packets of
scenario 5 (PING "probe", UPGRADE, and a timeout run containing one
PING). -/
theorem maybeUpgrade_probe_upgrade_timeout_witness :
    upgradeStep initialUpgradeState (UpgradeEvent.recv ⟨EIOPacketType.ping, "probe"⟩) =
      { initialUpgradeState with
          sentOnNew := initialUpgradeState.sentOnNew ++ [⟨EIOPacketType.pong, "probe"⟩],
          sentOnOld := initialUpgradeState.sentOnOld ++ [⟨EIOPacketType.noop, ""⟩] } ∧
    upgradeStep initialUpgradeState (UpgradeEvent.recv ⟨EIOPacketType.upgrade, ""⟩) =
      { initialUpgradeState with
          doneFired := true, activeIsNew := true, oldTransportClosed := true } ∧
    ((upgradeRun initialUpgradeState
        ([UpgradeEvent.recv ⟨EIOPacketType.ping, "probe"⟩] ++
          [UpgradeEvent.timeout])).newTransportClosed = true ∧
     (upgradeRun initialUpgradeState
        ([UpgradeEvent.recv ⟨EIOPacketType.ping, "probe"⟩] ++
          [UpgradeEvent.timeout])).activeIsNew = false) :=
  ⟨maybeUpgrade_probe_upgrade_timeout.1 initialUpgradeState _ rfl,
   maybeUpgrade_probe_upgrade_timeout.2.1 initialUpgradeState _ rfl,
   maybeUpgrade_probe_upgrade_timeout.2.2 _ (by intro p hp; simp at hp; simp [hp])⟩

/-- C8: while the Engine.IO server is open, any request whose `EIO`
query parameter does not parse as the integer 4 is answered with HTTP
status 400 and the JSON body `{code, message}` carrying code 5
("Unsupported protocol version"); the result is a direct error write —
neither the handshake path nor the session lookup is reached. -/
theorem serveHTTP_unsupported_protocol_version (closed : Bool)
    (store : List (String × String)) (req : EIORequest)
    (hopen : closed = false) (hver : goAtoi req.eio ≠ some 4) :
    ServeHTTP closed store req =
      ServeResult.response 400
        (some { code := 5, message := "Unsupported protocol version" }) := by
  subst hopen
  rcases hv : goAtoi req.eio with _ | version
  · simp [ServeHTTP, hv, writeServerError, errorUnsupportedProtocolVersion]
  · have hne : version ≠ 4 := by
      intro h
      exact hver (by rw [hv, h])
    have hbne : (version != ProtocolVersion) = true := by
      simp [ProtocolVersion, hne]
    simp [ServeHTTP, hv, hbne, writeServerError, errorUnsupportedProtocolVersion]

/-- C8 witness: the theorem at the request of part_002's
`TestInvalidEIOVersion` (`EIO=523523`) against an open server with an
empty session store. -/
theorem serveHTTP_unsupported_protocol_version_witness :
    ServeHTTP false [] { eio := "523523", sid := "", transport := "" } =
      ServeResult.response 400
        (some { code := 5, message := "Unsupported protocol version" }) :=
  serveHTTP_unsupported_protocol_version false []
    { eio := "523523", sid := "", transport := "" } rfl (by decide)
